import Mathlib

/-!
Shallow embedding of the transactional core of `src/dash_CR.py`:
the master-ledger table (`CR_Control.xlsx`), the cart, the sale-record
writer and the commit handler of the `finalizar_compra` screen.

Modelling conventions:
* A pandas DataFrame row of the master file is an `Entry`; the table is a
  `List Entry`.  Quantities are `Int` (pandas integer columns; nothing in
  the code keeps them non-negative) and money columns are `ℚ`.
* A cart element (the dict built at `confirmar_articulo`) is a `Compra`.
* File-system effects are explicit state: the set of sale files is a list
  of `(name, rows)` pairs, `os.path.exists` is membership of the name list.
* pandas/openpyxl I/O exceptions are modelled by a boolean success flag
  where a claim needs the failure branch (`guardar_compra_excel`); the
  exception branch of `actualizar_archivo_maestro` (its `return False`)
  is the constant-`true` second component of its result, since no
  in-memory computation of that function can raise.
-/

namespace DashCR

/-- Row of the master inventory ledger `CR_Control.xlsx`, with the column
names of the source (`Producto`, `SKU`, `Talla`, `Costo`,
`Cantidad inicial`, `Cantidad vendida`, `Cantidad sobrante`, `Ganancia`). -/
structure Entry where
  Producto : String
  SKU : String
  Talla : String
  Costo : ℚ
  CantidadInicial : Int
  CantidadVendida : Int
  CantidadSobrante : Int
  Ganancia : ℚ
deriving DecidableEq, Repr

/-- Cart line: the dict appended to `st.session_state.carrito` at
`confirmar_articulo` (keys `Producto`, `SKU`, `Talla`, `Cantidad`,
`Cantidad Vendida`, `Costo`, `Ganancia`). -/
structure Compra where
  Producto : String
  SKU : String
  Talla : String
  Cantidad : Int
  CantidadVendida : Int
  Costo : ℚ
  Ganancia : ℚ
deriving DecidableEq, Repr

/-- One loop iteration of `actualizar_archivo_maestro` (lines 261-276):
rows whose (`Producto`, `Talla`) equal the compra's get
`Cantidad vendida += compra['Cantidad']`, then `Ganancia` and
`Cantidad sobrante` recomputed from the updated `Cantidad vendida`;
all other rows are untouched.  When no row matches (`mask.any()` false)
the table is returned unchanged, exactly as in the source. -/
def applyOne (compra : Compra) (e : Entry) : Entry :=
  if e.Producto = compra.Producto ∧ e.Talla = compra.Talla then
    let v := e.CantidadVendida + compra.Cantidad
    { e with CantidadVendida := v
             Ganancia := (v : ℚ) * e.Costo
             CantidadSobrante := e.CantidadInicial - v }
  else e

/-- The row-wise update of one loop iteration, applied to the whole table
(the pandas masked assignment touches exactly the matching rows). -/
def applyCompra (df : List Entry) (compra : Compra) : List Entry :=
  df.map (applyOne compra)

/-- `actualizar_archivo_maestro` (lines 254-284): re-reads the master file
(the `df` argument is that fresh read), folds the per-compra update over
the cart, writes the table back and returns `True`.  The `except` branch
(`return False`) fires only on file-system errors, which the in-memory
model cannot produce, hence the constant `true` flag. -/
def actualizar_archivo_maestro (df : List Entry) (compras : List Compra) :
    List Entry × Bool :=
  (compras.foldl applyCompra df, true)

/-- `cargar_archivo_maestro` (lines 239-251): `pd.read_excel` of the stored
table, returned as stored; `None` when the file is missing.  No column is
recomputed on load. -/
def cargar_archivo_maestro (stored : Option (List Entry)) : Option (List Entry) :=
  stored

/-- The plain date-named sale file, `f"{fecha_hoy}.xlsx"`. -/
def nombreBase (fecha : String) : String := fecha ++ ".xlsx"

/-- Decimal digit characters of `n`, most significant first: the character
data of Python's `str(n)` for `n ≠ 0`. -/
def natStrData (n : Nat) : List Char := ((Nat.digits 10 n).reverse).map Nat.digitChar

/-- Decimal rendering of a natural number, as Python's `str`. -/
def natStr (n : Nat) : String := if n = 0 then "0" else String.mk (natStrData n)

/-- The suffixed sale-file name, `f"{fecha_hoy}_{contador}.xlsx"`. -/
def nombreConContador (fecha : String) (contador : Nat) : String :=
  fecha ++ "_" ++ natStr contador ++ ".xlsx"

/-- The `while True` probing loop of `generar_nombre_archivo` (lines
297-302), with explicit fuel: tries `fecha_contador.xlsx`,
`fecha_(contador+1).xlsx`, ... until a name not among the existing file
names is found.  `generar_nombre_archivo_isSome` shows fuel
`existing.length + 1` always suffices, so the fuel is not a semantic
restriction of the unbounded source loop. -/
def buscarNombre (fecha : String) (existing : List String) :
    Nat → Nat → Option String
  | 0, _ => none
  | fuel + 1, contador =>
    if nombreConContador fecha contador ∈ existing then
      buscarNombre fecha existing fuel (contador + 1)
    else some (nombreConContador fecha contador)

/-- `generar_nombre_archivo` (lines 287-302): returns `fecha.xlsx` when no
such file exists, otherwise probes `fecha_1.xlsx`, `fecha_2.xlsx`, ...
sequentially for the first unused name.  `existing` is the list of file
names present in the working directory (`os.path.exists`). -/
def generar_nombre_archivo (fecha : String) (existing : List String) : Option String :=
  if nombreBase fecha ∈ existing then buscarNombre fecha existing (existing.length + 1) 1
  else some (nombreBase fecha)

/-- Row of a sale file, column order of line 315: `Producto`, `SKU`,
`Talla`, `Cantidad Vendida`, `Costo`, `Ganancia`, `Fecha`. -/
structure VentaRow where
  Producto : String
  SKU : String
  Talla : String
  CantidadVendida : Int
  Costo : ℚ
  Ganancia : ℚ
  Fecha : String
deriving DecidableEq, Repr

/-- The sale-file row built from a cart line by `guardar_compra_excel`
(the DataFrame construction plus the `Fecha` column of line 312). -/
def filaVenta (fecha : String) (c : Compra) : VentaRow :=
  { Producto := c.Producto, SKU := c.SKU, Talla := c.Talla,
    CantidadVendida := c.CantidadVendida, Costo := c.Costo,
    Ganancia := c.Ganancia, Fecha := fecha }

/-- `guardar_compra_excel` (lines 305-326): builds the sale rows, generates
a fresh unique file name and writes the batch; any pandas/IO exception is
caught and `None` returned, modelled by the `escrituraOk` flag. -/
def guardar_compra_excel (fecha : String) (existing : List String)
    (compras : List Compra) (escrituraOk : Bool) :
    Option (String × List VentaRow) :=
  if escrituraOk then
    match generar_nombre_archivo fecha existing with
    | some nombre => some (nombre, compras.map (filaVenta fecha))
    | none => none
  else none

/-- The mutable state the commit handler touches: the persisted ledger
table, the persisted sale files (name and rows, most recent first) and the
in-session cart. -/
structure SysState where
  ledger : List Entry
  archivos : List (String × List VentaRow)
  carrito : List Compra
deriving DecidableEq, Repr

/-- The commit handler of the `finalizar_compra` screen (lines 603-624):
first `guardar_compra_excel`; only if that returned a file name,
`actualizar_archivo_maestro` on a fresh read of the ledger; only if that
returned `True`, the cart is cleared.  Returns the new state and the sale
file name on full success (`None` on any failure). -/
def finalizar_compra (fecha : String) (escrituraOk : Bool) (s : SysState) :
    SysState × Option String :=
  match guardar_compra_excel fecha (s.archivos.map Prod.fst) s.carrito escrituraOk with
  | none => (s, none)
  | some (nombre, filas) =>
    let actualizado := actualizar_archivo_maestro s.ledger s.carrito
    if actualizado.2 then
      ({ ledger := actualizado.1,
         archivos := (nombre, filas) :: s.archivos,
         carrito := [] }, some nombre)
    else
      ({ s with ledger := actualizado.1,
                archivos := (nombre, filas) :: s.archivos }, none)

/-! ### Helper layer: aggregated effect of one commit on the table -/

/-- Aggregated requested quantity of a cart for a given (Producto, Talla)
key: the sum of `Cantidad` over the cart lines matching that key. -/
def totalCantidad : List Compra → String → String → Int
  | [], _, _ => 0
  | c :: cs, p, t =>
    (if p = c.Producto ∧ t = c.Talla then c.Cantidad else 0) + totalCantidad cs p t

/-- Some cart line references the (p, t) key. -/
def matchea (compras : List Compra) (p t : String) : Prop :=
  ∃ c ∈ compras, p = c.Producto ∧ t = c.Talla

instance (compras : List Compra) (p t : String) : Decidable (matchea compras p t) :=
  List.decidableBEx _ compras

/-- The net effect of a whole cart on one ledger row: if any line matches
the row's key, `Cantidad vendida` grows by the aggregated quantity and the
derived columns are recomputed from the final value; otherwise the row is
untouched. -/
def aplicarTotal (compras : List Compra) (e : Entry) : Entry :=
  if matchea compras e.Producto e.Talla then
    let v := e.CantidadVendida + totalCantidad compras e.Producto e.Talla
    { e with CantidadVendida := v
             Ganancia := (v : ℚ) * e.Costo
             CantidadSobrante := e.CantidadInicial - v }
  else e

/-- The two derived-column formulas of a ledger entry:
`Cantidad sobrante = Cantidad inicial - Cantidad vendida` and
`Ganancia = Cantidad vendida * Costo`. -/
def entryInv (e : Entry) : Prop :=
  e.CantidadSobrante = e.CantidadInicial - e.CantidadVendida ∧
  e.Ganancia = (e.CantidadVendida : ℚ) * e.Costo

instance (e : Entry) : Decidable (entryInv e) :=
  inferInstanceAs (Decidable (_ ∧ _))

/-- A sequence of commits applied to the ledger: iterates
`actualizar_archivo_maestro`, each commit reading the table the previous
one wrote. -/
def aplicarCompras (df : List Entry) (cartas : List (List Compra)) : List Entry :=
  cartas.foldl (fun L cs => (actualizar_archivo_maestro L cs).1) df

/-! ### Concrete tables, carts and states for counterexamples and witnesses -/

/-- Ledger row with 5 units in stock and none sold. -/
def camiseta5 : Entry :=
  { Producto := "Camiseta", SKU := "SKU1", Talla := "M", Costo := 4,
    CantidadInicial := 5, CantidadVendida := 0, CantidadSobrante := 5, Ganancia := 0 }

/-- Cart line requesting 3 units of (Camiseta, M). -/
def linea3 : Compra :=
  { Producto := "Camiseta", SKU := "SKU1", Talla := "M", Cantidad := 3,
    CantidadVendida := 3, Costo := 4, Ganancia := 12 }

/-- The ledger row of the spec's worked example: (Shirt, M) with
InitialQuantity 10, SoldQuantity 2, RemainingQuantity 8. -/
def shirtM : Entry :=
  { Producto := "Shirt", SKU := "SH-M", Talla := "M", Costo := 4,
    CantidadInicial := 10, CantidadVendida := 2, CantidadSobrante := 8, Ganancia := 8 }

/-- Cart line requesting 3 units of (Shirt, M). -/
def lineaShirt3 : Compra :=
  { Producto := "Shirt", SKU := "SH-M", Talla := "M", Cantidad := 3,
    CantidadVendida := 3, Costo := 4, Ganancia := 12 }

/-- Cart line requesting 9 units of (Shirt, M) — more than the 8 remaining. -/
def lineaShirt9 : Compra :=
  { Producto := "Shirt", SKU := "SH-M", Talla := "M", Cantidad := 9,
    CantidadVendida := 9, Costo := 4, Ganancia := 36 }

/-- Cart line whose (Producto, Talla) key appears nowhere in the ledgers
used below. -/
def lineaGorra : Compra :=
  { Producto := "Gorra", SKU := "SKU9", Talla := "U", Cantidad := 2,
    CantidadVendida := 2, Costo := 3, Ganancia := 6 }

/-- A stored row whose derived columns were hand-edited out of sync with
the formulas (Sobrante should be 4, Ganancia should be 4). -/
def entradaManipulada : Entry :=
  { Producto := "Camiseta", SKU := "SKU2", Talla := "L", Costo := 4,
    CantidadInicial := 5, CantidadVendida := 1, CantidadSobrante := 99, Ganancia := 77 }

/-- Session about to commit the 9-unit oversell against the Shirt ledger. -/
def estadoShirt9 : SysState :=
  { ledger := [shirtM], archivos := [], carrito := [lineaShirt9] }

/-- Session about to commit the spec example's 3-unit cart. -/
def estadoShirt3 : SysState :=
  { ledger := [shirtM], archivos := [], carrito := [lineaShirt3] }

/-- Session whose cart holds two 3-unit lines for the same key against a
stock of 5. -/
def estadoCamiseta33 : SysState :=
  { ledger := [camiseta5], archivos := [], carrito := [linea3, linea3] }

theorem matchea_nil (p t : String) : ¬ matchea [] p t := by
  simp [matchea]

theorem matchea_cons (c : Compra) (cs : List Compra) (p t : String) :
    matchea (c :: cs) p t ↔ (p = c.Producto ∧ t = c.Talla) ∨ matchea cs p t := by
  simp [matchea]

theorem totalCantidad_eq_zero (cs : List Compra) (p t : String)
    (h : ¬ matchea cs p t) : totalCantidad cs p t = 0 := by
  induction cs with
  | nil => rfl
  | cons c cs ih =>
    rw [matchea_cons] at h
    push_neg at h
    have hnc : ¬(p = c.Producto ∧ t = c.Talla) := fun hand => h.1 hand.1 hand.2
    rw [totalCantidad, if_neg hnc, ih h.2, zero_add]

theorem aplicarTotal_nil (e : Entry) : aplicarTotal [] e = e := by
  simp [aplicarTotal, matchea]

theorem aplicarTotal_applyOne (c : Compra) (cs : List Compra) (e : Entry) :
    aplicarTotal cs (applyOne c e) = aplicarTotal (c :: cs) e := by
  by_cases hm : e.Producto = c.Producto ∧ e.Talla = c.Talla
  · have h1 : applyOne c e =
        { e with CantidadVendida := e.CantidadVendida + c.Cantidad
                 Ganancia := ((e.CantidadVendida + c.Cantidad : Int) : ℚ) * e.Costo
                 CantidadSobrante :=
                   e.CantidadInicial - (e.CantidadVendida + c.Cantidad) } := by
      rw [applyOne, if_pos hm]
    rw [h1]
    by_cases hcs : matchea cs e.Producto e.Talla
    · rw [aplicarTotal, aplicarTotal]
      dsimp only
      rw [if_pos hcs, if_pos ((matchea_cons c cs e.Producto e.Talla).mpr (Or.inl hm))]
      rw [totalCantidad, if_pos hm]
      simp only [Entry.mk.injEq, true_and, and_true]
      refine ⟨by omega, by omega, by push_cast; ring⟩
    · have hz := totalCantidad_eq_zero cs e.Producto e.Talla hcs
      rw [aplicarTotal, aplicarTotal]
      dsimp only
      rw [if_neg hcs, if_pos ((matchea_cons c cs e.Producto e.Talla).mpr (Or.inl hm))]
      rw [totalCantidad, if_pos hm, hz]
      simp only [Entry.mk.injEq, true_and, and_true]
      refine ⟨by omega, by omega, by push_cast; ring⟩
  · have heq : applyOne c e = e := by rw [applyOne, if_neg hm]
    rw [heq]
    by_cases hcs : matchea cs e.Producto e.Talla
    · rw [aplicarTotal, aplicarTotal]
      dsimp only
      rw [if_pos hcs, if_pos ((matchea_cons c cs e.Producto e.Talla).mpr (Or.inr hcs))]
      rw [totalCantidad, if_neg hm]
      simp only [Entry.mk.injEq, true_and, and_true]
      refine ⟨by omega, by omega, by push_cast; ring⟩
    · have hncons : ¬ matchea (c :: cs) e.Producto e.Talla := by
        rw [matchea_cons]
        exact fun h => h.elim hm hcs
      rw [aplicarTotal, aplicarTotal]
      dsimp only
      rw [if_neg hcs, if_neg hncons]

theorem foldl_applyCompra (compras : List Compra) (df : List Entry) :
    compras.foldl applyCompra df = df.map (aplicarTotal compras) := by
  induction compras generalizing df with
  | nil =>
    rw [List.foldl_nil]
    have h : df.map (aplicarTotal []) = df.map id :=
      List.map_congr_left fun e _ => aplicarTotal_nil e
    rw [h, List.map_id]
  | cons c cs ih =>
    rw [List.foldl_cons, ih, applyCompra, List.map_map]
    exact List.map_congr_left fun e _ => aplicarTotal_applyOne c cs e

/-- Characterization of `actualizar_archivo_maestro`: the whole commit acts
row-wise as `aplicarTotal`, and always reports success. -/
theorem actualizar_eq_map (df : List Entry) (compras : List Compra) :
    actualizar_archivo_maestro df compras = (df.map (aplicarTotal compras), true) := by
  simp [actualizar_archivo_maestro, foldl_applyCompra]

/-! ### Sale-file naming: freshness and totality of the probing loop -/

theorem buscarNombre_fresh (fecha : String) (existing : List String) :
    ∀ (fuel contador : Nat) (nombre : String),
      buscarNombre fecha existing fuel contador = some nombre → nombre ∉ existing := by
  intro fuel
  induction fuel with
  | zero => intro contador nombre h; simp [buscarNombre] at h
  | succ fuel ih =>
    intro contador nombre h
    rw [buscarNombre] at h
    by_cases hmem : nombreConContador fecha contador ∈ existing
    · rw [if_pos hmem] at h
      exact ih _ _ h
    · rw [if_neg hmem] at h
      cases h
      exact hmem

theorem buscarNombre_none (fecha : String) (existing : List String) :
    ∀ (fuel contador : Nat), buscarNombre fecha existing fuel contador = none →
      ∀ j, j < fuel → nombreConContador fecha (contador + j) ∈ existing := by
  intro fuel
  induction fuel with
  | zero => intro contador _ j hj; omega
  | succ fuel ih =>
    intro contador h j hj
    rw [buscarNombre] at h
    by_cases hmem : nombreConContador fecha contador ∈ existing
    · rw [if_pos hmem] at h
      rcases Nat.eq_zero_or_pos j with hj0 | hjpos
      · subst hj0; simpa using hmem
      · have hrec := ih (contador + 1) h (j - 1) (by omega)
        have harr : contador + 1 + (j - 1) = contador + j := by omega
        rwa [harr] at hrec
    · rw [if_neg hmem] at h
      cases h

theorem digitChar_inj_lt (d1 d2 : Nat) (h1 : d1 < 10) (h2 : d2 < 10)
    (h : Nat.digitChar d1 = Nat.digitChar d2) : d1 = d2 := by
  interval_cases d1 <;> interval_cases d2 <;> revert h <;> decide

theorem map_digitChar_inj : ∀ (l1 l2 : List Nat), (∀ d ∈ l1, d < 10) →
    (∀ d ∈ l2, d < 10) → l1.map Nat.digitChar = l2.map Nat.digitChar → l1 = l2
  | [], [], _, _, _ => rfl
  | [], _ :: _, _, _, h => by simp at h
  | _ :: _, [], _, _, h => by simp at h
  | c1 :: l1, c2 :: l2, hb1, hb2, h => by
    simp only [List.map_cons, List.cons.injEq] at h
    have hd := digitChar_inj_lt c1 c2 (hb1 c1 (by simp)) (hb2 c2 (by simp)) h.1
    have ht := map_digitChar_inj l1 l2 (fun d hd2 => hb1 d (by simp [hd2]))
      (fun d hd2 => hb2 d (by simp [hd2])) h.2
    rw [hd, ht]

theorem natStrData_inj (m n : Nat) (h : natStrData m = natStrData n) : m = n := by
  unfold natStrData at h
  have hm : ∀ d ∈ (Nat.digits 10 m).reverse, d < 10 := fun d hd =>
    Nat.digits_lt_base (by norm_num) (List.mem_reverse.mp hd)
  have hn : ∀ d ∈ (Nat.digits 10 n).reverse, d < 10 := fun d hd =>
    Nat.digits_lt_base (by norm_num) (List.mem_reverse.mp hd)
  exact Nat.digits.injective 10 (List.reverse_injective (map_digitChar_inj _ _ hm hn h))

theorem natStr_inj_pos (m n : Nat) (hm : 0 < m) (hn : 0 < n)
    (h : natStr m = natStr n) : m = n := by
  rw [natStr, if_neg (Nat.pos_iff_ne_zero.mp hm), natStr,
    if_neg (Nat.pos_iff_ne_zero.mp hn)] at h
  have hdata : natStrData m = natStrData n := by
    have := congrArg String.data h
    simpa using this
  exact natStrData_inj m n hdata

theorem nombreConContador_inj (fecha : String) (i j : Nat) (hi : 0 < i) (hj : 0 < j)
    (h : nombreConContador fecha i = nombreConContador fecha j) : i = j := by
  have hd := congrArg String.data h
  simp only [nombreConContador, String.data_append] at hd
  have h1 : (natStr i).data = (natStr j).data :=
    List.append_cancel_left (List.append_cancel_right hd)
  exact natStr_inj_pos i j hi hj (String.ext h1)

theorem buscarNombre_isSome (fecha : String) (existing : List String) :
    (buscarNombre fecha existing (existing.length + 1) 1).isSome := by
  by_contra h
  rw [Option.not_isSome_iff_eq_none] at h
  have hall := buscarNombre_none fecha existing (existing.length + 1) 1 h
  set l := (List.range (existing.length + 1)).map
    (fun j => nombreConContador fecha (1 + j)) with hl
  have hsub : ∀ x ∈ l, x ∈ existing := by
    intro x hx
    rw [hl, List.mem_map] at hx
    obtain ⟨j, hj, rfl⟩ := hx
    exact hall j (List.mem_range.mp hj)
  have hnd : l.Nodup := by
    refine List.Nodup.map ?_ (List.nodup_range _)
    intro a b hab
    have := nombreConContador_inj fecha (1 + a) (1 + b) (by omega) (by omega) hab
    omega
  have hlen : l.length = existing.length + 1 := by simp [hl]
  have hcard1 : l.toFinset.card = l.length := List.toFinset_card_of_nodup hnd
  have hsub2 : l.toFinset ⊆ existing.toFinset := by
    intro x hx
    rw [List.mem_toFinset] at hx ⊢
    exact hsub x hx
  have hcard2 : l.toFinset.card ≤ existing.toFinset.card := Finset.card_le_card hsub2
  have hcard3 : existing.toFinset.card ≤ existing.length := existing.toFinset_card_le
  omega

theorem generar_nombre_archivo_isSome (fecha : String) (existing : List String) :
    (generar_nombre_archivo fecha existing).isSome := by
  rw [generar_nombre_archivo]
  by_cases hb : nombreBase fecha ∈ existing
  · rw [if_pos hb]; exact buscarNombre_isSome fecha existing
  · rw [if_neg hb]; rfl

theorem generar_nombre_archivo_fresh (fecha : String) (existing : List String)
    (nombre : String) (h : generar_nombre_archivo fecha existing = some nombre) :
    nombre ∉ existing := by
  rw [generar_nombre_archivo] at h
  by_cases hb : nombreBase fecha ∈ existing
  · rw [if_pos hb] at h
    exact buscarNombre_fresh fecha existing _ _ _ h
  · rw [if_neg hb] at h
    cases h
    exact hb

/-! ### Derived-column invariant lemmas -/

theorem aplicarTotal_inv (compras : List Compra) (e : Entry) (h : entryInv e) :
    entryInv (aplicarTotal compras e) := by
  rw [aplicarTotal]
  by_cases hm : matchea compras e.Producto e.Talla
  · rw [if_pos hm]
    exact ⟨rfl, rfl⟩
  · rw [if_neg hm]
    exact h

theorem actualizar_preserves_inv (df : List Entry) (compras : List Compra)
    (h : ∀ e ∈ df, entryInv e) :
    ∀ e ∈ (actualizar_archivo_maestro df compras).1, entryInv e := by
  rw [actualizar_eq_map]
  intro e2 he2
  rw [List.mem_map] at he2
  obtain ⟨a, ha, rfl⟩ := he2
  exact aplicarTotal_inv compras a (h a ha)

theorem aplicarTotal_preserva (compras : List Compra) (e : Entry) :
    (aplicarTotal compras e).Producto = e.Producto ∧
    (aplicarTotal compras e).Talla = e.Talla ∧
    (aplicarTotal compras e).SKU = e.SKU ∧
    (aplicarTotal compras e).Costo = e.Costo ∧
    (aplicarTotal compras e).CantidadInicial = e.CantidadInicial := by
  rw [aplicarTotal]
  split <;> exact ⟨rfl, rfl, rfl, rfl, rfl⟩

/-! ### Claim C2 -/

/-- C2 counterexample: a one-row ledger satisfying every invariant, stock 5;
one commit of two 3-unit lines for that key reports success (`True`) yet
leaves `Cantidad sobrante = -1 < 0`, so the claimed `RemainingQuantity ≥ 0`
fails after a successful commit. -/
theorem C2_counterexample :
    (∀ e ∈ [camiseta5], entryInv e) ∧
    (actualizar_archivo_maestro [camiseta5] [linea3, linea3]).2 = true ∧
    ∃ e ∈ (actualizar_archivo_maestro [camiseta5] [linea3, linea3]).1,
      e.CantidadSobrante < 0 := by
  refine ⟨?_, rfl, ?_⟩
  · intro e he
    rw [List.mem_singleton] at he
    subst he
    constructor <;> norm_num [camiseta5]
  · refine ⟨(actualizar_archivo_maestro [camiseta5] [linea3, linea3]).1.head (by
      simp [actualizar_archivo_maestro, applyCompra]), ?_, ?_⟩
    · exact List.head_mem _
    · simp [actualizar_archivo_maestro, applyCompra, applyOne, camiseta5, linea3]

/-- C2 (amended): after any sequence of commits, every ledger entry still
satisfies `RemainingQuantity = InitialQuantity − SoldQuantity` and
`AccruedProfit = SoldQuantity × UnitCost` exactly, provided the starting
table satisfied them; the `RemainingQuantity ≥ 0` part of the claim is not
maintained (no oversell guard exists), as `C2_counterexample` shows. -/
theorem C2_formulas_preserved (L0 : List Entry) (cartas : List (List Compra))
    (h0 : ∀ e ∈ L0, entryInv e) :
    ∀ e ∈ aplicarCompras L0 cartas, entryInv e := by
  induction cartas generalizing L0 with
  | nil => simpa [aplicarCompras] using h0
  | cons cs rest ih =>
    have hstep : aplicarCompras L0 (cs :: rest) =
        aplicarCompras (actualizar_archivo_maestro L0 cs).1 rest := rfl
    rw [hstep]
    exact ih _ (actualizar_preserves_inv L0 cs h0)

/-- Witness for `C2_formulas_preserved` at the spec example's ledger and a
two-commit sequence. -/
theorem C2_formulas_preserved_witness :
    (∀ e ∈ [shirtM], entryInv e) ∧
    ∀ e ∈ aplicarCompras [shirtM] [[lineaShirt3], [lineaShirt3]], entryInv e := by
  have h0 : ∀ e ∈ [shirtM], entryInv e := by
    intro e he
    rw [List.mem_singleton] at he
    subst he
    constructor <;> norm_num [shirtM]
  exact ⟨h0, C2_formulas_preserved [shirtM] [[lineaShirt3], [lineaShirt3]] h0⟩

/-! ### Claim C5 -/

/-- C5 counterexample: applying the same one-line batch (3 units of a key
with stock 5) twice does not equal applying it once — the second
application decrements again (SoldQuantity 6 versus 3). -/
theorem C5_counterexample :
    (actualizar_archivo_maestro
        (actualizar_archivo_maestro [camiseta5] [linea3]).1 [linea3]).1 ≠
      (actualizar_archivo_maestro [camiseta5] [linea3]).1 := by
  simp [actualizar_archivo_maestro, applyCompra, applyOne, camiseta5, linea3]

/-- C5 (amended): delta application is additive, not idempotent: running the
same batch twice equals running the doubled batch `b ++ b` once, so every
matched entry is decremented twice; the code keeps no processed-batch set,
and `C5_counterexample` exhibits the double decrement. -/
theorem C5_double_application (L : List Entry) (b : List Compra) :
    (actualizar_archivo_maestro (actualizar_archivo_maestro L b).1 b).1 =
      (actualizar_archivo_maestro L (b ++ b)).1 := by
  simp [actualizar_archivo_maestro, List.foldl_append]

/-! ### Claim C7 -/

/-- C7 counterexample: a deltas list holding an absent key (Gorra, U) and a
present key (Camiseta, M): the operation reports success (`True`, never a
Conflict), the absent key is silently skipped (same result as without it),
and the present key is still applied (the table does change). -/
theorem C7_counterexample :
    (actualizar_archivo_maestro [camiseta5] [lineaGorra, linea3]).2 = true ∧
    (actualizar_archivo_maestro [camiseta5] [lineaGorra, linea3]).1 =
      (actualizar_archivo_maestro [camiseta5] [linea3]).1 ∧
    (actualizar_archivo_maestro [camiseta5] [linea3]).1 ≠ [camiseta5] := by
  refine ⟨rfl, ?_, ?_⟩
  · simp [actualizar_archivo_maestro, applyCompra, applyOne, camiseta5, linea3, lineaGorra]
  · simp [actualizar_archivo_maestro, applyCompra, applyOne, camiseta5, linea3]

/-- C7 (amended): a deltas key matching no ledger row is silently skipped —
the fold step for that line leaves the table unchanged and the remaining
lines are processed as if it were not there; the operation still reports
success.  No Conflict failure exists in the code. -/
theorem C7_absent_key_skipped (df : List Entry) (c : Compra) (cs : List Compra)
    (h : ∀ e ∈ df, ¬(e.Producto = c.Producto ∧ e.Talla = c.Talla)) :
    actualizar_archivo_maestro df (c :: cs) = actualizar_archivo_maestro df cs := by
  have happ : applyCompra df c = df := by
    rw [applyCompra]
    have hcongr : df.map (applyOne c) = df.map id :=
      List.map_congr_left fun e he => by rw [applyOne, if_neg (h e he)]; rfl
    rw [hcongr, List.map_id]
  unfold actualizar_archivo_maestro
  rw [List.foldl_cons, happ]

/-- Witness for `C7_absent_key_skipped`: the (Gorra, U) line against the
one-row (Camiseta, M) ledger. -/
theorem C7_absent_key_skipped_witness :
    (∀ e ∈ [camiseta5], ¬(e.Producto = lineaGorra.Producto ∧ e.Talla = lineaGorra.Talla)) ∧
    actualizar_archivo_maestro [camiseta5] [lineaGorra, linea3] =
      actualizar_archivo_maestro [camiseta5] [linea3] := by
  have h : ∀ e ∈ [camiseta5],
      ¬(e.Producto = lineaGorra.Producto ∧ e.Talla = lineaGorra.Talla) := by
    intro e he
    rw [List.mem_singleton] at he
    subst he
    simp [camiseta5, lineaGorra]
  exact ⟨h, C7_absent_key_skipped [camiseta5] lineaGorra [linea3] h⟩

/-! ### Claim C8 -/

/-- C8 counterexample: a stored row whose derived columns were hand-edited
(Sobrante 99 and Ganancia 77 instead of the recomputed 4 and 4) is returned
by the load exactly as stored — the drift is fully observable, nothing is
recomputed on load. -/
theorem C8_counterexample :
    cargar_archivo_maestro (some [entradaManipulada]) = some [entradaManipulada] ∧
    ¬ entryInv entradaManipulada := by
  refine ⟨rfl, ?_⟩
  intro h
  have h1 := h.1
  norm_num [entradaManipulada] at h1

/-- C8 (amended): the load returns the persisted table verbatim — derived
columns are trusted as stored, never recomputed on load; recomputation
happens only for the rows matched during a commit's delta application
(`actualizar_archivo_maestro`). -/
theorem C8_load_verbatim (stored : Option (List Entry)) :
    cargar_archivo_maestro stored = stored := rfl

/-! ### The commit handler -/

theorem finalizar_compra_eq (fecha : String) (s : SysState) (nombre : String)
    (hn : generar_nombre_archivo fecha (s.archivos.map Prod.fst) = some nombre) :
    finalizar_compra fecha true s =
      ({ ledger := (actualizar_archivo_maestro s.ledger s.carrito).1,
         archivos := (nombre, s.carrito.map (filaVenta fecha)) :: s.archivos,
         carrito := [] }, some nombre) := by
  rw [finalizar_compra, guardar_compra_excel]
  simp only [if_true, hn, actualizar_archivo_maestro]

/-! ### Claim C3 -/

/-- C3: when the sale-record write fails, the commit aborts before the
ledger step: the whole state (ledger, sale files and cart) is exactly the
pre-commit state and no sale name is returned, so the commit is safe to
retry.  The ledger update is reachable only through the success branch of
the sale write, which is performed first. -/
theorem C3_sale_write_failure_aborts (fecha : String) (s : SysState) :
    finalizar_compra fecha false s = (s, none) := rfl

/-! ### Claim C4 -/

/-- C4: sale-file naming is fresh and collision-free: the generated name is
never one of the existing files (probing `_1`, `_2`, ... when the plain
date name is taken), and generating again on the same date with the first
name now present yields a second, different name. -/
theorem C4_unique_names (fecha : String) (existing : List String) :
    ∃ n1 n2,
      generar_nombre_archivo fecha existing = some n1 ∧ n1 ∉ existing ∧
      generar_nombre_archivo fecha (n1 :: existing) = some n2 ∧
      n2 ∉ n1 :: existing ∧ n2 ≠ n1 := by
  obtain ⟨n1, h1⟩ := Option.isSome_iff_exists.mp
    (generar_nombre_archivo_isSome fecha existing)
  obtain ⟨n2, h2⟩ := Option.isSome_iff_exists.mp
    (generar_nombre_archivo_isSome fecha (n1 :: existing))
  have f1 := generar_nombre_archivo_fresh fecha existing n1 h1
  have f2 := generar_nombre_archivo_fresh fecha (n1 :: existing) n2 h2
  refine ⟨n1, n2, h1, f1, h2, f2, fun hEq => f2 ?_⟩
  rw [hEq]
  exact List.mem_cons_self _ _

/-! ### Claim C1 -/

/-- C1 counterexample: the spec's own data — ledger entry (Shirt, M) with
8 remaining, cart requesting 9 — yet the commit is not rejected: it
returns a sale-file name, the ledger changes and the sale-file store
changes.  No `InsufficientStock` re-check exists at commit time. -/
theorem C1_counterexample :
    shirtM.CantidadSobrante <
      totalCantidad estadoShirt9.carrito shirtM.Producto shirtM.Talla ∧
    (finalizar_compra "2024-05-01" true estadoShirt9).2 = some "2024-05-01.xlsx" ∧
    (finalizar_compra "2024-05-01" true estadoShirt9).1.ledger ≠ estadoShirt9.ledger ∧
    (finalizar_compra "2024-05-01" true estadoShirt9).1.archivos ≠ estadoShirt9.archivos := by
  have hn : generar_nombre_archivo "2024-05-01" (estadoShirt9.archivos.map Prod.fst) =
      some "2024-05-01.xlsx" := rfl
  rw [finalizar_compra_eq "2024-05-01" estadoShirt9 _ hn]
  refine ⟨by decide, rfl, ?_, ?_⟩
  · dsimp only
    simp [actualizar_archivo_maestro, applyCompra, applyOne, estadoShirt9, shirtM, lineaShirt9]
  · dsimp only
    simp [estadoShirt9]

/-- C1 (amended): the commit performs no stock re-validation at all: even
when the aggregated requested quantity for an entry exceeds its
`Cantidad sobrante`, the sale file is written, the full deltas are applied
to the ledger and the cart is cleared; the affected entry simply receives
the whole aggregated decrement (driving `Cantidad sobrante` negative).
The only stock check in the program is at cart-add time. -/
theorem C1_commit_ignores_oversell (fecha : String) (s : SysState) (i : Nat) (e : Entry)
    (hle : s.ledger[i]? = some e)
    (hover : e.CantidadSobrante < totalCantidad s.carrito e.Producto e.Talla) :
    ∃ nombre,
      (finalizar_compra fecha true s).2 = some nombre ∧
      (finalizar_compra fecha true s).1.ledger =
        (actualizar_archivo_maestro s.ledger s.carrito).1 ∧
      (finalizar_compra fecha true s).1.archivos =
        (nombre, s.carrito.map (filaVenta fecha)) :: s.archivos ∧
      (finalizar_compra fecha true s).1.carrito = [] ∧
      ((finalizar_compra fecha true s).1.ledger)[i]? = some (aplicarTotal s.carrito e) := by
  obtain ⟨nombre, hn⟩ := Option.isSome_iff_exists.mp
    (generar_nombre_archivo_isSome fecha (s.archivos.map Prod.fst))
  rw [finalizar_compra_eq fecha s nombre hn]
  refine ⟨nombre, rfl, rfl, rfl, rfl, ?_⟩
  dsimp only
  rw [actualizar_eq_map]
  dsimp only
  rw [List.getElem?_map, hle]
  rfl

/-- Witness for `C1_commit_ignores_oversell` at the spec example's ledger
with the 9-unit cart (8 remaining), checking also that the entry ends with
`Cantidad sobrante = -1`. -/
theorem C1_commit_ignores_oversell_witness :
    (estadoShirt9.ledger[0]? = some shirtM) ∧
    (shirtM.CantidadSobrante <
      totalCantidad estadoShirt9.carrito shirtM.Producto shirtM.Talla) ∧
    (∃ nombre,
      (finalizar_compra "2024-05-01" true estadoShirt9).2 = some nombre ∧
      (finalizar_compra "2024-05-01" true estadoShirt9).1.ledger =
        (actualizar_archivo_maestro estadoShirt9.ledger estadoShirt9.carrito).1 ∧
      (finalizar_compra "2024-05-01" true estadoShirt9).1.archivos =
        (nombre, estadoShirt9.carrito.map (filaVenta "2024-05-01")) :: estadoShirt9.archivos ∧
      (finalizar_compra "2024-05-01" true estadoShirt9).1.carrito = [] ∧
      ((finalizar_compra "2024-05-01" true estadoShirt9).1.ledger)[0]? =
        some (aplicarTotal estadoShirt9.carrito shirtM)) ∧
    (aplicarTotal estadoShirt9.carrito shirtM).CantidadSobrante = -1 := by
  refine ⟨rfl, by decide,
    C1_commit_ignores_oversell "2024-05-01" estadoShirt9 0 shirtM rfl (by decide), ?_⟩
  simp [aplicarTotal, matchea, estadoShirt9, shirtM, lineaShirt9, totalCantidad]

/-! ### Claim C6 -/

/-- C6 counterexample: a cart with two 3-unit lines for (Camiseta, M)
against a stock of 5 is not rejected as a whole (nor at all): the commit
returns a sale-file name and the ledger entry ends with SoldQuantity 6 and
RemainingQuantity −1. -/
theorem C6_counterexample :
    (finalizar_compra "2024-05-01" true estadoCamiseta33).2 = some "2024-05-01.xlsx" ∧
    ∃ e ∈ (finalizar_compra "2024-05-01" true estadoCamiseta33).1.ledger,
      e.CantidadVendida = 6 ∧ e.CantidadSobrante = -1 := by
  have hn : generar_nombre_archivo "2024-05-01" (estadoCamiseta33.archivos.map Prod.fst) =
      some "2024-05-01.xlsx" := rfl
  rw [finalizar_compra_eq "2024-05-01" estadoCamiseta33 _ hn]
  refine ⟨rfl, ?_⟩
  dsimp only
  refine ⟨(actualizar_archivo_maestro estadoCamiseta33.ledger estadoCamiseta33.carrito).1.head
    (by simp [estadoCamiseta33, actualizar_archivo_maestro, applyCompra]), List.head_mem _, ?_⟩
  simp [estadoCamiseta33, actualizar_archivo_maestro, applyCompra, applyOne, camiseta5, linea3]

/-- C6 (amended): two cart lines for the same (Producto, Talla) key are not
validated at all at commit time; their quantities are both applied, so the
matched entry receives the summed decrement of the two lines (and the
derived columns are recomputed from that sum), while the operation reports
success. -/
theorem C6_summed_effect (df : List Entry) (c1 c2 : Compra) (i : Nat) (e : Entry)
    (h : df[i]? = some e)
    (h1 : e.Producto = c1.Producto ∧ e.Talla = c1.Talla)
    (h2 : e.Producto = c2.Producto ∧ e.Talla = c2.Talla) :
    ((actualizar_archivo_maestro df [c1, c2]).1)[i]? = some
      { e with CantidadVendida := e.CantidadVendida + (c1.Cantidad + c2.Cantidad)
               Ganancia :=
                 ((e.CantidadVendida + (c1.Cantidad + c2.Cantidad) : Int) : ℚ) * e.Costo
               CantidadSobrante :=
                 e.CantidadInicial - (e.CantidadVendida + (c1.Cantidad + c2.Cantidad)) } ∧
    (actualizar_archivo_maestro df [c1, c2]).2 = true := by
  refine ⟨?_, rfl⟩
  rw [actualizar_eq_map]
  dsimp only
  rw [List.getElem?_map, h]
  have hm : matchea [c1, c2] e.Producto e.Talla :=
    (matchea_cons c1 [c2] e.Producto e.Talla).mpr (Or.inl h1)
  rw [Option.map_some', aplicarTotal, if_pos hm, totalCantidad, if_pos h1,
    totalCantidad, if_pos h2, totalCantidad]
  rw [Option.some.injEq, Entry.mk.injEq]
  refine ⟨rfl, rfl, rfl, rfl, rfl, by omega, by omega, ?_⟩
  push_cast
  ring

/-- Witness for `C6_summed_effect`: the two 3-unit lines against stock 5. -/
theorem C6_summed_effect_witness :
    ([camiseta5][0]? = some camiseta5) ∧
    (camiseta5.Producto = linea3.Producto ∧ camiseta5.Talla = linea3.Talla) ∧
    (((actualizar_archivo_maestro [camiseta5] [linea3, linea3]).1)[0]? = some
      { camiseta5 with
          CantidadVendida := camiseta5.CantidadVendida + (linea3.Cantidad + linea3.Cantidad)
          Ganancia :=
            ((camiseta5.CantidadVendida + (linea3.Cantidad + linea3.Cantidad) : Int) : ℚ) *
              camiseta5.Costo
          CantidadSobrante :=
            camiseta5.CantidadInicial -
              (camiseta5.CantidadVendida + (linea3.Cantidad + linea3.Cantidad)) } ∧
    (actualizar_archivo_maestro [camiseta5] [linea3, linea3]).2 = true) := by
  have h1 : camiseta5.Producto = linea3.Producto ∧ camiseta5.Talla = linea3.Talla :=
    ⟨rfl, rfl⟩
  exact ⟨rfl, h1, C6_summed_effect [camiseta5] linea3 linea3 0 camiseta5 rfl h1 h1⟩

/-! ### Claim C9 -/

/-- C9: a commit of a non-empty cart that fully succeeds clears the cart to
empty and returns the fresh sale-file name; the ledger receives the cart's
deltas and the sale file holds one row per cart line. -/
theorem C9_commit_clears_cart (fecha : String) (s : SysState) (h : s.carrito ≠ []) :
    ∃ nombre, finalizar_compra fecha true s =
      ({ ledger := (actualizar_archivo_maestro s.ledger s.carrito).1,
         archivos := (nombre, s.carrito.map (filaVenta fecha)) :: s.archivos,
         carrito := [] }, some nombre) := by
  obtain ⟨nombre, hn⟩ := Option.isSome_iff_exists.mp
    (generar_nombre_archivo_isSome fecha (s.archivos.map Prod.fst))
  exact ⟨nombre, finalizar_compra_eq fecha s nombre hn⟩

/-- Witness for `C9_commit_clears_cart` at the spec's worked example:
(Shirt, M) with InitialQuantity 10, SoldQuantity 2, cart of one 3-unit
line.  After the commit SoldQuantity is 5, RemainingQuantity is 5, one sale
row with quantity 3 is written, and the cart is empty. -/
theorem C9_commit_clears_cart_witness :
    estadoShirt3.carrito ≠ [] ∧
    (∃ nombre, finalizar_compra "2024-05-01" true estadoShirt3 =
      ({ ledger := (actualizar_archivo_maestro estadoShirt3.ledger estadoShirt3.carrito).1,
         archivos := (nombre, estadoShirt3.carrito.map (filaVenta "2024-05-01")) ::
           estadoShirt3.archivos,
         carrito := [] }, some nombre)) ∧
    (finalizar_compra "2024-05-01" true estadoShirt3).1.ledger =
      [{ shirtM with CantidadVendida := 5, CantidadSobrante := 5, Ganancia := 20 }] ∧
    (finalizar_compra "2024-05-01" true estadoShirt3).1.archivos =
      [("2024-05-01.xlsx", [filaVenta "2024-05-01" lineaShirt3])] ∧
    (finalizar_compra "2024-05-01" true estadoShirt3).1.carrito = [] := by
  have hne : estadoShirt3.carrito ≠ [] := by simp [estadoShirt3]
  have hn : generar_nombre_archivo "2024-05-01" (estadoShirt3.archivos.map Prod.fst) =
      some "2024-05-01.xlsx" := rfl
  have hfin := finalizar_compra_eq "2024-05-01" estadoShirt3 _ hn
  refine ⟨hne, C9_commit_clears_cart "2024-05-01" estadoShirt3 hne, ?_, ?_, ?_⟩
  · rw [hfin]
    dsimp only
    simp [actualizar_archivo_maestro, applyCompra, applyOne, estadoShirt3, shirtM, lineaShirt3]
    norm_num
  · rw [hfin]
    rfl
  · rw [hfin]

/-! ### Claim C10 -/

/-- C10: frame property of delta application: a ledger row whose key
matches no cart line is left entirely unchanged, and even a matched row
keeps its `Producto`, `Talla`, `SKU`, `Costo` and `Cantidad inicial`
columns — only the sold/profit/remaining columns can change. -/
theorem C10_frame (df : List Entry) (compras : List Compra) (i : Nat) (e : Entry)
    (h : df[i]? = some e) :
    ∃ e2, ((actualizar_archivo_maestro df compras).1)[i]? = some e2 ∧
      e2.Producto = e.Producto ∧ e2.Talla = e.Talla ∧ e2.SKU = e.SKU ∧
      e2.Costo = e.Costo ∧ e2.CantidadInicial = e.CantidadInicial ∧
      ((∀ c ∈ compras, ¬(e.Producto = c.Producto ∧ e.Talla = c.Talla)) → e2 = e) := by
  refine ⟨aplicarTotal compras e, ?_, (aplicarTotal_preserva compras e).1,
    (aplicarTotal_preserva compras e).2.1, (aplicarTotal_preserva compras e).2.2.1,
    (aplicarTotal_preserva compras e).2.2.2.1, (aplicarTotal_preserva compras e).2.2.2.2, ?_⟩
  · rw [actualizar_eq_map]
    dsimp only
    rw [List.getElem?_map, h, Option.map_some']
  · intro hno
    have hnm : ¬ matchea compras e.Producto e.Talla := by
      rintro ⟨c, hc, hpt⟩
      exact hno c hc hpt
    rw [aplicarTotal, if_neg hnm]

/-- Witness for `C10_frame`: the (Camiseta, L) hand-edited row is untouched
by a cart that only references (Camiseta, M) — same product, other size. -/
theorem C10_frame_witness :
    ([camiseta5, entradaManipulada][1]? = some entradaManipulada) ∧
    ∃ e2, ((actualizar_archivo_maestro [camiseta5, entradaManipulada] [linea3]).1)[1]? =
        some e2 ∧
      e2.Producto = entradaManipulada.Producto ∧ e2.Talla = entradaManipulada.Talla ∧
      e2.SKU = entradaManipulada.SKU ∧ e2.Costo = entradaManipulada.Costo ∧
      e2.CantidadInicial = entradaManipulada.CantidadInicial ∧
      ((∀ c ∈ [linea3],
        ¬(entradaManipulada.Producto = c.Producto ∧ entradaManipulada.Talla = c.Talla)) →
        e2 = entradaManipulada) :=
  ⟨rfl, C10_frame [camiseta5, entradaManipulada] [linea3] 1 entradaManipulada rfl⟩

end DashCR
